import Mathlib

/-!
Verification development for the art-club Telegram subscription service.

Shallow embedding of the payment/subscription core:
* data model (`src/bot/database/models.py`) as Lean structures over a list-based
  database state (timestamps are UTC seconds as `Int`, money is `ℚ`);
* the database layer (`src/bot/database/database.py`) as pure state transformers;
* the Prodamus webhook reconciler (`src/webhook/prodamus.py`) as a pure function
  from the incoming form payload and the database state to the next state, the
  JSON response and the list of outbound side effects;
* the promo-code redemption handler (`src/bot/handlers/user.py`,
  `process_promo_code`) and the expiry sweeper
  (`src/bot/utils/scheduler.py`, `check_expired_subscriptions`) likewise.

Modelling conventions: the deployed configuration has the database and the bot
instance set (`main.py` calls `set_database`/`set_bot`), so the `if db:` /
`if bot:` guards of the Python code are taken to be true.  Form-data fields
that the code reads through `data.get(...)` are modelled as `String` with `""`
for an absent key (matching the `''` defaults and Python truthiness), except
the two money fields, which are modelled as `Option ℚ` where `none` stands for
an absent key or an empty string (both falsy in the `or`-chain of line 100)
and `some q` for a field that parses as the float `q`.  Telegram chat
membership is an oracle `isMember : Int → Bool` that is true exactly when
`get_chat_member` returns a status in `['member', 'administrator', 'creator']`.
-/

namespace ArtClub

/-- One day in seconds; `timedelta(days = n)` is `n * secondsPerDay`. -/
def secondsPerDay : Int := 86400

/-- Python `timedelta.days`: floor division of the total seconds by 86400. -/
def timedeltaDays (seconds : Int) : Int := Int.fdiv seconds secondsPerDay

/-- Python `str.upper()` (the codes at issue are ASCII). -/
def pyUpper (s : String) : String := ⟨s.data.map Char.toUpper⟩

/-- Python `str.lower()` (the handles at issue are ASCII). -/
def pyLower (s : String) : String := ⟨s.data.map Char.toLower⟩

/-- Python `str.strip()` with no argument: drop surrounding whitespace. -/
def pyStrip (s : String) : String :=
  ⟨((s.data.dropWhile Char.isWhitespace).reverse.dropWhile
      Char.isWhitespace).reverse⟩

/-- Digits of a Python `int` literal (no sign): all characters decimal digits,
at least one. -/
def digitsToNat : List Char → Option Nat
  | [] => none
  | cs =>
    if cs.all Char.isDigit then
      some (cs.foldl (fun acc c => 10 * acc + (c.toNat - 48)) 0)
    else none

/-- Python `int(...)` on a character sequence, for the payloads at issue: an
optional sign followed by decimal digits; anything else raises `ValueError`,
modelled as `none`. -/
def pyIntChars? : List Char → Option Int
  | '-' :: rest => (digitsToNat rest).map (fun n => -(n : Int))
  | '+' :: rest => (digitsToNat rest).map (fun n => (n : Int))
  | cs => (digitsToNat cs).map (fun n => (n : Int))

/-- Python `int(s)`. -/
def pyInt? (s : String) : Option Int := pyIntChars? s.data

/-- Python `s.split("_")` on the character list (keeps empty pieces, like
`"a__b".split("_") == ['a', '', 'b']`). -/
def splitOnUnderscore : List Char → List (List Char)
  | [] => [[]]
  | c :: rest =>
    let r := splitOnUnderscore rest
    if c == '_' then [] :: r
    else
      match r with
      | [] => [[c]]
      | h :: t => (c :: h) :: t

/-- `listStartsWith l pat`: `pat` is a prefix of `l`. -/
def listStartsWith : List Char → List Char → Bool
  | _, [] => true
  | [], _ :: _ => false
  | a :: as, b :: bs => a == b && listStartsWith as bs

/-- `containsSub l pat`: `pat` occurs contiguously inside `l`. -/
def containsSub : List Char → List Char → Bool
  | [], pat => pat.isEmpty
  | l@(_ :: rest), pat => listStartsWith l pat || containsSub rest pat

/-- Python `pat in s` on strings. -/
def strContainsSub (s pat : String) : Bool := containsSub s.data pat.data

/-! ## Data model (`src/bot/database/models.py`) -/

/-- `users` row (the fields the verified code paths touch). -/
structure User where
  id : Int
  username : Option String
  is_subscribed : Bool
  subscription_until : Option Int
deriving DecidableEq

/-- `subscriptions` row. -/
structure Subscription where
  user_id : Int
  duration_months : Nat
  expires_at : Int
  activated_by : String
  promocode : Option String
deriving DecidableEq

/-- `promocodes` row.  `for_username` is the column added by
`src/migrate_add_username.py` and consumed by `user.py` / `admin.py`. -/
structure Promocode where
  code : String
  discount_type : String
  discount_value : ℚ
  duration_months : Nat
  max_uses : Option Nat
  used_count : Nat
  for_user_id : Option Int
  for_username : Option String
  is_gift : Bool
  valid_until : Option Int
  is_active : Bool
  created_by : Int
deriving DecidableEq

/-- `payments` row. -/
structure Payment where
  user_id : Int
  order_id : String
  amount : ℚ
  subscription_plan : String
  duration_months : Nat
  status : String
deriving DecidableEq

/-- The relational state the handlers read and write. -/
structure DBState where
  users : List User
  subscriptions : List Subscription
  promocodes : List Promocode
  payments : List Payment
deriving DecidableEq

/-! ## Database layer (`src/bot/database/database.py`) -/

/-- `Database.get_user`: select by primary key. -/
def get_user (st : DBState) (uid : Int) : Option User :=
  st.users.find? (fun u => u.id == uid)

/-- `Database.get_payment`: select by the unique `order_id`. -/
def get_payment (st : DBState) (oid : String) : Option Payment :=
  st.payments.find? (fun p => p.order_id == oid)

/-- `Database.get_promocode`: select where `code == code.upper()`. -/
def get_promocode (st : DBState) (code : String) : Option Promocode :=
  st.promocodes.find? (fun p => p.code == pyUpper code)

/-- The `UPDATE users SET is_subscribed, subscription_until WHERE id = uid`
statement shared by `update_subscription_status` and `add_subscription`. -/
def setSubscriptionFields (users : List User) (uid : Int) (flag : Bool)
    (upto : Option Int) : List User :=
  users.map (fun u =>
    if u.id == uid then
      { u with is_subscribed := flag, subscription_until := upto }
    else u)

/-- `Database.update_subscription_status` — note that its `expires_at`
parameter defaults to `None`, so the sweeper's call nulls
`subscription_until`. -/
def update_subscription_status (st : DBState) (uid : Int) (flag : Bool)
    (upto : Option Int) : DBState :=
  { st with users := setSubscriptionFields st.users uid flag upto }

/-- `Database.add_subscription`: insert the row and mark the user
subscribed until the new expiry. -/
def add_subscription (st : DBState) (uid : Int) (months : Nat)
    (expires_at : Int) (activated_by : String) (promocode : Option String) :
    DBState :=
  { st with
    subscriptions :=
      st.subscriptions ++ [⟨uid, months, expires_at, activated_by, promocode⟩],
    users := setSubscriptionFields st.users uid true (some expires_at) }

/-- `Database.add_payment`: insert the row. -/
def add_payment (st : DBState) (uid : Int) (oid : String) (amount : ℚ)
    (plan : String) (months : Nat) (status : String) : DBState :=
  { st with payments := st.payments ++ [⟨uid, oid, amount, plan, months, status⟩] }

/-- `Database.create_promocode` (its signature has no `for_username`
parameter, so that column is left empty). -/
def create_promocode (st : DBState) (code : String) (dtype : String)
    (dvalue : ℚ) (months : Nat) (max_uses : Option Nat) (created_by : Int)
    (is_gift : Bool) : DBState :=
  { st with promocodes := st.promocodes ++
      [⟨code, dtype, dvalue, months, max_uses, 0, none, none, is_gift, none,
        true, created_by⟩] }

/-- `Database.use_promocode`: increment `used_count` where
`code == code.upper()`; a missing code is a no-op returning `False`. -/
def use_promocode (st : DBState) (code : String) : DBState :=
  { st with promocodes := st.promocodes.map (fun p =>
      if p.code == pyUpper code then { p with used_count := p.used_count + 1 }
      else p) }

/-- `Database.get_expired_subscribers`: subscribed users whose
`subscription_until` is strictly before now (`NULL < now` is not satisfied). -/
def isExpiredSubscriber (now : Int) (u : User) : Bool :=
  u.is_subscribed &&
    (match u.subscription_until with
     | some t => decide (t < now)
     | none => false)

def get_expired_subscribers (st : DBState) (now : Int) : List User :=
  st.users.filter (isExpiredSubscriber now)

/-- The `SELECT ... ORDER BY expires_at DESC LIMIT 1` of the webhook's
duplicate branch: a subscription of the user with maximal expiry. -/
def latestSubscription (st : DBState) (uid : Int) : Option Subscription :=
  (st.subscriptions.filter (fun s => s.user_id == uid)).foldl
    (fun acc s =>
      match acc with
      | none => some s
      | some m => if m.expires_at < s.expires_at then some s else acc)
    none

/-! ## Plan configuration (`src/bot/utils/helpers.py`, `get_plan_config`) -/

structure PlanEntry where
  key : String
  months : Nat
  price : ℚ
deriving DecidableEq

/-- `get_plan_config`: the plan dict in insertion order, prices read from the
environment with the given defaults. -/
def get_plan_config (p1 p3 p6 p12 : ℚ) : List PlanEntry :=
  [⟨"1_month", 1, p1⟩, ⟨"3_months", 3, p3⟩, ⟨"6_months", 6, p6⟩,
   ⟨"12_months", 12, p12⟩]

/-- The plan table under the default environment
(`PRICE_1_MONTH=3500`, ...). -/
def defaultPlans : List PlanEntry := get_plan_config 3500 9450 17850 33600

/-! ## Webhook reconciler (`src/webhook/prodamus.py`, `prodamus_webhook`) -/

/-- The form payload fields the handler reads.  `""` models an absent key for
the string fields.  `user_id` is declared in the `ProdamusWebhook` payload
model (line 49) but the handler never reads it. -/
structure WebhookData where
  order_id : String
  payment_status : String
  payment_type : String
  customer_extra : String
  sum : Option ℚ
  order_sum : Option ℚ
  tg_user_id : String
  user_id : String
deriving DecidableEq

/-- The JSON bodies the endpoint answers with; `httpCode` is the HTTP status,
always 200 on these paths (the handler returns plain dicts and its
`except` clause also returns a dict, deliberately, so that Prodamus does not
retry). -/
structure WebhookResponse where
  httpCode : Nat
  status : String
  message : String
deriving DecidableEq

/-- Outbound side effects of the webhook handler. -/
inductive WebhookEffect where
  | inviteSent (user_id : Int) (expires_at : Int)
  | renewalNotice (user_id : Int)
  | giftCodeSent (user_id : Int) (code : String)
deriving DecidableEq

/-- Lines 100–101: `sum_value = data.get('sum') or data.get('order_sum') or
'3500'`; `amount = float(sum_value)`. -/
def webhookAmount (d : WebhookData) : ℚ :=
  match d.sum with
  | some q => q
  | none =>
    match d.order_sum with
    | some q => q
    | none => 3500

/-- Line 104: `"Автоплатеж" in payment_type or "Auto" in payment_type`. -/
def isAutopayment (payment_type : String) : Bool :=
  strContainsSub payment_type "Автоплатеж" || strContainsSub payment_type "Auto"

/-- Python truthiness of the running `user_id` variable (`None` and `0` are
both falsy at the `if not user_id:` checks). -/
def truthyId : Option Int → Bool
  | none => false
  | some n => n != 0

/-- Strategy 2 of the identity extraction (lines 121–128): split the order id
on `_` and parse the second component when there are at least three. -/
def orderIdUserId (oid : String) : Option Int :=
  let parts := splitOnUnderscore oid.data
  if parts.length ≥ 3 then pyIntChars? (parts.getD 1 []) else none

/-- Identity extraction, lines 109–150: try `customer_extra`, then the order
id, then `tg_user_id`; a strategy that yields a falsy value (unparsable or
`0`) falls through to the next, and a falsy final value is `None`.  The
`user_id` field of the payload is never consulted. -/
def extract_user_id (d : WebhookData) : Option Int :=
  let u1 := if d.customer_extra != "" then pyInt? d.customer_extra else none
  let u2 := if truthyId u1 then u1 else orderIdUserId d.order_id
  let u3 := if truthyId u2 then u2 else
    (if d.tg_user_id != "" then pyInt? d.tg_user_id else none)
  if truthyId u3 then u3 else none

/-- Lines 282–289: `plan = "1_month"`, then the first plan whose price is
within 100 of the charged amount, if any. -/
def resolvePlanKey (plans : List PlanEntry) (amount : ℚ) : String :=
  match plans.find? (fun e => decide (|amount - e.price| < 100)) with
  | some e => e.key
  | none => "1_month"

/-- Line 291: `plan_info = plans[plan]` — a dict lookup; `none` models the
`KeyError` that the outer `except` clause would turn into an error reply. -/
def planInfo (plans : List PlanEntry) (key : String) : Option PlanEntry :=
  plans.find? (fun e => e.key == key)

/-- Lines 157–226: the autopayment branch. -/
def handleAutopayment (isMember : Int → Bool) (now : Int) (st : DBState)
    (uid : Int) (oid : String) (amount : ℚ) :
    DBState × WebhookResponse × List WebhookEffect :=
  match get_payment st oid with
  | some _ => (st, ⟨200, "ok", "Autopayment already processed"⟩, [])
  | none =>
    let st1 := add_payment st uid oid amount "autopayment_1_month" 1 "success"
    let new_expires := now + 30 * secondsPerDay
    let st2 := add_subscription st1 uid 1 new_expires "autopayment" none
    let invites :=
      if isMember uid then [] else [WebhookEffect.inviteSent uid new_expires]
    (st2, ⟨200, "ok", "Autopayment processed"⟩,
     invites ++ [WebhookEffect.renewalNotice uid])

/-- Lines 232–279: the duplicate branch of the normal flow — an existing
payment for the order id short-circuits, re-sending an invite when the user
is flagged subscribed, a latest subscription row exists, and the user is not
currently a channel member. -/
def handleDuplicate (isMember : Int → Bool) (st : DBState) (uid : Int) :
    DBState × WebhookResponse × List WebhookEffect :=
  let effects :=
    match get_user st uid with
    | some u =>
      if u.is_subscribed then
        match latestSubscription st uid with
        | some s =>
          if isMember uid then []
          else [WebhookEffect.inviteSent uid s.expires_at]
        | none => []
      else []
    | none => []
  (st, ⟨200, "ok", "Payment already processed"⟩, effects)

/-- Lines 281–365: the normal flow once no duplicate was found — resolve the
plan by price, record the payment, then either mint a gift code or insert the
subscription and invite. -/
def handleStandard (plans : List PlanEntry) (giftRand : Nat) (now : Int)
    (st : DBState) (uid : Int) (oid : String) (amount : ℚ) (is_gift : Bool) :
    DBState × WebhookResponse × List WebhookEffect :=
  let plan := resolvePlanKey plans amount
  match planInfo plans plan with
  | none =>
    (st, ⟨200, "error", "Internal error: KeyError"⟩, [])
  | some info =>
    let st1 := add_payment st uid oid amount
      (if is_gift then "gift_" ++ plan else plan) info.months "success"
    if is_gift then
      let gift_code := "GIFT_" ++ toString giftRand
      let st2 := create_promocode st1 gift_code "free" 100 info.months
        (some 1) uid true
      (st2, ⟨200, "ok", "Payment processed"⟩,
       [WebhookEffect.giftCodeSent uid gift_code])
    else
      let expires_at := now + 30 * (info.months : Int) * secondsPerDay
      let st2 := add_subscription st1 uid info.months expires_at "payment" none
      (st2, ⟨200, "ok", "Payment processed"⟩,
       [WebhookEffect.inviteSent uid expires_at])

/-- `prodamus_webhook` (lines 55–365): validate the order id, extract the
user, drop non-success notifications, then dispatch on payment type.
`giftRand` stands for the `random.randint(100000, 999999)` draw of the gift
branch. -/
def prodamus_webhook (plans : List PlanEntry) (isMember : Int → Bool)
    (giftRand : Nat) (now : Int) (st : DBState) (d : WebhookData) :
    DBState × WebhookResponse × List WebhookEffect :=
  if d.order_id == "" || d.order_id == "0" then
    (st, ⟨200, "error", "Invalid order_id"⟩, [])
  else
    let amount := webhookAmount d
    let is_auto := isAutopayment d.payment_type
    let is_gift := listStartsWith d.order_id.data "gift_".data
    match extract_user_id d with
    | none =>
      (st, ⟨200, "error", "Cannot extract user_id from webhook data"⟩, [])
    | some uid =>
      if d.payment_status != "" && d.payment_status != "success" then
        (st, ⟨200, "ok", "Payment not successful"⟩, [])
      else if is_auto then
        handleAutopayment isMember now st uid d.order_id amount
      else
        match get_payment st d.order_id with
        | some _ => handleDuplicate isMember st uid
        | none => handleStandard plans giftRand now st uid d.order_id amount
            is_gift

/-! ## Expiry sweeper (`src/bot/utils/scheduler.py`,
`check_expired_subscriptions`) -/

/-- Side effects of one sweep. -/
inductive SweepEffect where
  | removedFromChannel (user_id : Int)
  | lapsedNotice (user_id : Int)
deriving DecidableEq

/-- Line 40: `days_expired = (datetime.utcnow() - user.subscription_until).days`
(every swept user has a set `subscription_until`, the `getD` default is never
reached there). -/
def daysExpired (now : Int) (u : User) : Int :=
  timedeltaDays (now - u.subscription_until.getD 0)

/-- Lines 37–76, one loop iteration: inside the two-day window do nothing,
otherwise remove from the channel, flip the flag (nulling
`subscription_until`, see `update_subscription_status`) and notify. -/
def sweepUser (now : Int) (acc : DBState × List SweepEffect) (u : User) :
    DBState × List SweepEffect :=
  if daysExpired now u < 2 then acc
  else
    (update_subscription_status acc.1 u.id false none,
     acc.2 ++ [SweepEffect.removedFromChannel u.id,
               SweepEffect.lapsedNotice u.id])

/-- `check_expired_subscriptions`: fold the loop body over the snapshot of
expired subscribers. -/
def check_expired_subscriptions (st : DBState) (now : Int) :
    DBState × List SweepEffect :=
  (get_expired_subscribers st now).foldl (sweepUser now) (st, [])

/-! ## Promo-code redemption (`src/bot/handlers/user.py`,
`process_promo_code`) -/

/-- The redeeming Telegram account as aiogram presents it
(`message.from_user`). -/
structure TgUser where
  id : Int
  username : Option String
deriving DecidableEq

/-- The typed outcome of one redemption attempt (which reply the handler
sends / which state it leaves the FSM in). -/
inductive PromoOutcome where
  | menuButtonIgnored
  | notFound
  | inactive
  | expired
  | usesExhausted
  | wrongRecipientUsername
  | wrongRecipientId
  | freeActivated (expires_at : Int)
  | discountApplied (code : String)
  | crashedNoUser
deriving DecidableEq

/-- Side effects of a redemption. -/
inductive PromoEffect where
  | inviteSent (user_id : Int) (expires_at : Int)
deriving DecidableEq

/-- The menu-button texts the handler ignores (lines 284–288). -/
def menu_buttons : List String :=
  ["💳 Купить подписку", "🎁 Купить в подарок", "📊 Моя подписка",
   "🎫 Промокод", "ℹ️ О клубе", "📞 Поддержка", "👨‍💼 Админ-панель"]

/-- Line 304: `promo.valid_until and promo.valid_until < datetime.utcnow()`
(a datetime is always truthy). -/
def promoExpired (promo : Promocode) (now : Int) : Bool :=
  match promo.valid_until with
  | some t => decide (t < now)
  | none => false

/-- Line 308: `promo.max_uses and promo.used_count >= promo.max_uses`
(`max_uses = 0` is falsy, hence unlimited). -/
def promoUsesExhausted (promo : Promocode) : Bool :=
  match promo.max_uses with
  | some m => m != 0 && promo.used_count ≥ m
  | none => false

/-- Lines 313–330: the recipient binding of a gift code.  The handle binding
is checked first; the id binding is consulted only via the `elif`, i.e. when
no truthy handle binding exists. -/
def giftGateRejects (promo : Promocode) (from_user : TgUser) :
    Option PromoOutcome :=
  if promo.is_gift then
    if (match promo.for_username with
        | some h => h != ""
        | none => false) then
      let user_username : Option String :=
        match from_user.username with
        | some s => if s == "" then none else some (pyLower s)
        | none => none
      if user_username != promo.for_username.map pyLower then
        some PromoOutcome.wrongRecipientUsername
      else none
    else if truthyId promo.for_user_id then
      if promo.for_user_id != some from_user.id then
        some PromoOutcome.wrongRecipientId
      else none
    else none
  else none

/-- Lines 337–341: the free-grant classification. -/
def is_free_promo (promo : Promocode) : Bool :=
  promo.discount_type == "free" ||
  (promo.discount_type == "percent" && decide (promo.discount_value ≥ 100)) ||
  (promo.discount_type == "fixed" && decide (promo.discount_value ≥ 99999))

/-- `process_promo_code` (lines 280–394) as a pure transition: menu buttons
pass through, then the code is canonicalized and the validity, quota and
recipient gates run in order; a surviving code either grants a free
subscription (insert + counter increment + invite) or merely carries a
discount forward (`state.update_data`, no ledger change).  `crashedNoUser`
marks the `AttributeError` a missing user row would raise in the free
branch. -/
def process_promo_code (st : DBState) (now : Int) (from_user : TgUser)
    (text : String) : DBState × PromoOutcome × List PromoEffect :=
  if text ∈ menu_buttons then (st, PromoOutcome.menuButtonIgnored, [])
  else
    let code := pyUpper (pyStrip text)
    match get_promocode st code with
    | none => (st, PromoOutcome.notFound, [])
    | some promo =>
      if !promo.is_active then (st, PromoOutcome.inactive, [])
      else if promoExpired promo now then (st, PromoOutcome.expired, [])
      else if promoUsesExhausted promo then
        (st, PromoOutcome.usesExhausted, [])
      else
        match giftGateRejects promo from_user with
        | some o => (st, o, [])
        | none =>
          let user := get_user st from_user.id
          if is_free_promo promo then
            match user with
            | none => (st, PromoOutcome.crashedNoUser, [])
            | some u =>
              let expires_at :=
                now + 30 * (promo.duration_months : Int) * secondsPerDay
              let st1 := add_subscription st u.id promo.duration_months
                expires_at "promo" (some code)
              let st2 := use_promocode st1 code
              (st2, PromoOutcome.freeActivated expires_at,
               [PromoEffect.inviteSent u.id expires_at])
          else
            (st, PromoOutcome.discountApplied code, [])

/-! ## Statement-side definitions -/

/-- The identity-derivation order as the amendment states it, written as an
option chain for comparison with `extract_user_id`: first truthy result among
parsing `customer_extra`, the second underscore component of the order id,
and `tg_user_id`; the payload's explicit `user_id` field plays no part. -/
def extractUserIdSpec (d : WebhookData) : Option Int :=
  (Option.filter (fun n => n != 0)
      (if d.customer_extra != "" then pyInt? d.customer_extra else none)).orElse
    (fun _ =>
      (Option.filter (fun n => n != 0) (orderIdUserId d.order_id)).orElse
        (fun _ =>
          Option.filter (fun n => n != 0)
            (if d.tg_user_id != "" then pyInt? d.tg_user_id else none)))

/-- The user-row update the revoke pass performs. -/
def revokeFn (u : User) : User :=
  { u with is_subscribed := false, subscription_until := none }

/-- `True` when the sweep acts on `u`: outside the two-day grace window. -/
def sweepActs (now : Int) (u : User) : Bool :=
  !(decide (daysExpired now u < 2))

/-- Number of channel-removal effects for `uid` in an effect trace. -/
def revokeCount (effs : List SweepEffect) (uid : Int) : Nat :=
  effs.count (SweepEffect.removedFromChannel uid)

/-- The state component of one sweep iteration (`sweepUser` with the effect
bookkeeping dropped). -/
def applySweep (now : Int) (s : DBState) (u : User) : DBState :=
  if sweepActs now u then update_subscription_status s u.id false none else s

/-! ## Concrete fixtures for the witnesses and counterexamples -/

def stEmpty : DBState := ⟨[], [], [], []⟩

def promoSave50 : Promocode :=
  ⟨"SAVE50", "percent", 50, 1, none, 0, none, none, false, none, true, 1⟩

def promoGiftAlice : Promocode :=
  ⟨"GIFT_1", "free", 100, 3, some 1, 0, some 42, some "Alice", true, none,
   true, 1⟩

def user42 : User := ⟨42, none, false, none⟩

def stPromo : DBState := ⟨[user42], [], [promoSave50, promoGiftAlice], []⟩

/-- A user whose subscription still has 40 days to run (now = 0). -/
def stActiveSub : DBState :=
  ⟨[⟨7, none, true, some 3456000⟩], [⟨7, 1, 3456000, "payment", none⟩], [], []⟩

/-- A successful autopayment notification for user 7 (the Cyrillic marker is
interchangeable with the `"Auto"` one at line 104). -/
def dAutopay : WebhookData :=
  ⟨"sub_7_169", "success", "Auto", "", some 3500, none, "", ""⟩

/-- A ledger holding a `pending` payment for order `ord_7_1`. -/
def stPending : DBState :=
  ⟨[], [], [], [⟨7, "ord_7_1", 3500, "1_month", 1, "pending"⟩]⟩

/-- A successful ordinary notification for order `ord_7_1`. -/
def dStandard : WebhookData :=
  ⟨"ord_7_1", "success", "card", "", some 3500, none, "", ""⟩

/-- A notification carrying a well-formed explicit `user_id` field but no
identity hint that the handler actually reads. -/
def dOnlyExplicitId : WebhookData :=
  ⟨"abc", "success", "card", "", some 3500, none, "", "123"⟩

/-- A successful ordinary notification whose amount matches no plan price
within the 100 ₽ tolerance. -/
def dOddAmount : WebhookData :=
  ⟨"ord_7_1", "success", "card", "", some 999999, none, "", ""⟩

/-- A successful ordinary notification with both money fields absent. -/
def dNoAmount : WebhookData :=
  ⟨"ord_7_1", "success", "card", "", none, none, "", ""⟩

/-- Two lapsed subscribers: user 1 one day past expiry, user 2 three days
past expiry (now = 0). -/
def stSweep : DBState :=
  ⟨[⟨1, none, true, some (-86400)⟩, ⟨2, none, true, some (-259200)⟩],
   [⟨2, 1, -259200, "payment", none⟩], [], []⟩

/-! ## General lemmas -/

theorem find?_payments_append (ps : List Payment) (P : Payment) (oid : String)
    (h : ps.find? (fun p => p.order_id == oid) = none) (hP : P.order_id = oid) :
    (ps ++ [P]).find? (fun p => p.order_id == oid) = some P := by
  rw [List.find?_append, h]
  simp [hP]

theorem countP_payments_append (ps : List Payment) (P : Payment) (oid : String)
    (h : ps.find? (fun p => p.order_id == oid) = none) (hP : P.order_id = oid) :
    (ps ++ [P]).countP (fun p => p.order_id == oid) = 1 := by
  rw [List.countP_append]
  have h0 : ps.countP (fun p => p.order_id == oid) = 0 :=
    List.countP_eq_zero.mpr (List.find?_eq_none.mp h)
  simp [h0, hP]

/-- The common prefix of `prodamus_webhook`: with a valid order id, a
resolvable identity and a success status, the handler reaches the dispatch on
the payment type. -/
theorem webhook_reduces (plans : List PlanEntry) (isMember : Int → Bool)
    (g : Nat) (now : Int) (st : DBState) (d : WebhookData) (uid : Int)
    (h1 : d.order_id ≠ "") (h2 : d.order_id ≠ "0")
    (hext : extract_user_id d = some uid)
    (hst : d.payment_status = "success") :
    prodamus_webhook plans isMember g now st d
      = (if isAutopayment d.payment_type then
          handleAutopayment isMember now st uid d.order_id (webhookAmount d)
        else
          match get_payment st d.order_id with
          | some _ => handleDuplicate isMember st uid
          | none => handleStandard plans g now st uid d.order_id
              (webhookAmount d) (listStartsWith d.order_id.data "gift_".data)) := by
  have hbad : (d.order_id == "" || d.order_id == "0") = false := by
    simp [h1, h2]
  simp only [prodamus_webhook, hbad, hext, hst]
  simp

/-- Resolving a plan key over any `get_plan_config` table always finds an
entry (the default key `"1_month"` is in the table). -/
theorem planInfo_resolve_isSome (p1 p3 p6 p12 : ℚ) (amount : ℚ) :
    ∃ info, planInfo (get_plan_config p1 p3 p6 p12)
      (resolvePlanKey (get_plan_config p1 p3 p6 p12) amount) = some info := by
  unfold resolvePlanKey
  cases hf : (get_plan_config p1 p3 p6 p12).find?
      (fun e => decide (|amount - e.price| < 100)) with
  | none =>
    refine ⟨⟨"1_month", 1, p1⟩, ?_⟩
    simp [planInfo, get_plan_config]
  | some e =>
    have hmem := List.mem_of_find?_eq_some hf
    simp only [get_plan_config, List.mem_cons, List.mem_singleton,
      List.not_mem_nil, or_false] at hmem
    rcases hmem with h | h | h | h <;> subst h <;>
      simp [planInfo, get_plan_config]

/-! ## C7: classification of a valid promo code -/

/-- C7: for every valid promo code (found, active, unexpired, quota left,
recipient gate passed, redeemer registered), redemption takes the free-grant
branch exactly when the discount kind is `free`, or `percent` with value ≥
100, or `fixed` with value ≥ 99999; every other valid code yields the
discount outcome. -/
theorem promo_free_grant_classification
    (st : DBState) (now : Int) (from_user : TgUser) (text : String)
    (promo : Promocode) (u : User)
    (hmenu : text ∉ menu_buttons)
    (hfound : get_promocode st (pyUpper (pyStrip text)) = some promo)
    (hactive : promo.is_active = true)
    (hexp : promoExpired promo now = false)
    (huses : promoUsesExhausted promo = false)
    (hgift : giftGateRejects promo from_user = none)
    (huser : get_user st from_user.id = some u) :
    ((∃ e, (process_promo_code st now from_user text).2.1
        = PromoOutcome.freeActivated e)
      ↔ (promo.discount_type = "free"
          ∨ (promo.discount_type = "percent" ∧ (100 : ℚ) ≤ promo.discount_value)
          ∨ (promo.discount_type = "fixed" ∧ (99999 : ℚ) ≤ promo.discount_value)))
    ∧ (¬ (promo.discount_type = "free"
          ∨ (promo.discount_type = "percent" ∧ (100 : ℚ) ≤ promo.discount_value)
          ∨ (promo.discount_type = "fixed" ∧ (99999 : ℚ) ≤ promo.discount_value))
        → (process_promo_code st now from_user text).2.1
            = PromoOutcome.discountApplied (pyUpper (pyStrip text))) := by
  have hfree : is_free_promo promo = true ↔
      (promo.discount_type = "free"
        ∨ (promo.discount_type = "percent" ∧ (100 : ℚ) ≤ promo.discount_value)
        ∨ (promo.discount_type = "fixed" ∧ (99999 : ℚ) ≤ promo.discount_value)) := by
    simp only [is_free_promo, ge_iff_le, Bool.or_eq_true, Bool.and_eq_true,
      beq_iff_eq, decide_eq_true_eq]
    tauto
  by_cases hc : is_free_promo promo = true
  · constructor
    · rw [← hfree]
      constructor
      · intro _; exact hc
      · intro _
        refine ⟨now + 30 * (promo.duration_months : Int) * secondsPerDay, ?_⟩
        simp only [process_promo_code, if_neg hmenu, hfound, hactive, hexp,
          huses, hgift, huser, hc]
        simp
    · intro hno; exact absurd (hfree.mp hc) hno
  · have hcf : is_free_promo promo = false := by
      simpa using hc
    constructor
    · rw [← hfree]
      constructor
      · intro ⟨e, he⟩
        exfalso
        simp only [process_promo_code, if_neg hmenu, hfound, hactive, hexp,
          huses, hgift, huser, hcf] at he
        simp at he
      · intro h; exact absurd h hc
    · intro _
      simp only [process_promo_code, if_neg hmenu, hfound, hactive, hexp,
        huses, hgift, huser, hcf]
      simp

theorem promo_free_grant_classification_witness :
    (∃ e, (process_promo_code stPromo 0 ⟨42, some "alice"⟩ "gift_1").2.1
        = PromoOutcome.freeActivated e)
      ↔ (promoGiftAlice.discount_type = "free"
          ∨ (promoGiftAlice.discount_type = "percent"
              ∧ (100 : ℚ) ≤ promoGiftAlice.discount_value)
          ∨ (promoGiftAlice.discount_type = "fixed"
              ∧ (99999 : ℚ) ≤ promoGiftAlice.discount_value)) :=
  (promo_free_grant_classification stPromo 0 ⟨42, some "alice"⟩ "gift_1"
    promoGiftAlice user42 (by decide) (by decide) (by decide) (by decide)
    (by decide) (by decide) (by decide)).1

/-! ## C8: a discount-classified redemption mutates no ledger state -/

/-- C8: for every valid promo code classified as a discount, redemption
leaves the database state unchanged — no Subscription row, no Payment row,
no `used_count` increment — and merely reports the discount to be carried
into checkout. -/
theorem promo_discount_no_ledger_mutation
    (st : DBState) (now : Int) (from_user : TgUser) (text : String)
    (promo : Promocode)
    (hmenu : text ∉ menu_buttons)
    (hfound : get_promocode st (pyUpper (pyStrip text)) = some promo)
    (hactive : promo.is_active = true)
    (hexp : promoExpired promo now = false)
    (huses : promoUsesExhausted promo = false)
    (hgift : giftGateRejects promo from_user = none)
    (hfree : is_free_promo promo = false) :
    (process_promo_code st now from_user text).1 = st
    ∧ (process_promo_code st now from_user text).2.1
        = PromoOutcome.discountApplied (pyUpper (pyStrip text)) := by
  simp only [process_promo_code, if_neg hmenu, hfound, hactive, hexp, huses,
    hgift, hfree]
  simp

theorem promo_discount_no_ledger_mutation_witness :
    (process_promo_code stPromo 0 ⟨42, none⟩ "save50").1 = stPromo
    ∧ (process_promo_code stPromo 0 ⟨42, none⟩ "save50").2.1
        = PromoOutcome.discountApplied "SAVE50" :=
  promo_discount_no_ledger_mutation stPromo 0 ⟨42, none⟩ "save50" promoSave50
    (by decide) (by decide) (by decide) (by decide) (by decide) (by decide)
    (by decide)

/-! ## C10: gift-code handle binding precedes the id binding -/

/-- C10: for every gift promo code bound to a recipient handle, redemption by
a user with no handle is rejected with the recipient-mismatch outcome and
mutates nothing — even when the code's id binding names exactly that user,
since the handle check runs first and the `elif` never consults the id. -/
theorem gift_handle_binding_precedence
    (st : DBState) (now : Int) (from_user : TgUser) (text : String)
    (promo : Promocode) (h : String)
    (hmenu : text ∉ menu_buttons)
    (hfound : get_promocode st (pyUpper (pyStrip text)) = some promo)
    (hactive : promo.is_active = true)
    (hexp : promoExpired promo now = false)
    (huses : promoUsesExhausted promo = false)
    (hisgift : promo.is_gift = true)
    (hhandle : promo.for_username = some h)
    (hne : h ≠ "")
    (hnouser : from_user.username = none)
    (hid : promo.for_user_id = some from_user.id) :
    (process_promo_code st now from_user text).1 = st
    ∧ (process_promo_code st now from_user text).2.1
        = PromoOutcome.wrongRecipientUsername := by
  have hreject : giftGateRejects promo from_user
      = some PromoOutcome.wrongRecipientUsername := by
    simp only [giftGateRejects, hisgift, hhandle, hnouser]
    simp [hne]
  simp only [process_promo_code, if_neg hmenu, hfound, hactive, hexp, huses,
    hreject]
  simp

theorem gift_handle_binding_precedence_witness :
    (process_promo_code stPromo 0 ⟨42, none⟩ "gift_1").1 = stPromo
    ∧ (process_promo_code stPromo 0 ⟨42, none⟩ "gift_1").2.1
        = PromoOutcome.wrongRecipientUsername :=
  gift_handle_binding_precedence stPromo 0 ⟨42, none⟩ "gift_1" promoGiftAlice
    "Alice" (by decide) (by decide) (by decide) (by decide) (by decide)
    (by decide) (by decide) (by decide) (by decide) (by decide)


/-! ## C2: how the autopayment branch computes the new expiry -/

/-- C2 (amended): for every successful, not-yet-seen autopayment
notification, the reconciler inserts a subscription expiring exactly 30 days
after `now`, irrespective of the user's current expiry — it does not take
`max(current_expiry, now)`, so remaining active time is discarded. -/
theorem autopay_extends_from_now
    (plans : List PlanEntry) (isMember : Int → Bool) (g : Nat) (now : Int)
    (st : DBState) (d : WebhookData) (uid : Int)
    (h1 : d.order_id ≠ "") (h2 : d.order_id ≠ "0")
    (hext : extract_user_id d = some uid)
    (hst : d.payment_status = "success")
    (hauto : isAutopayment d.payment_type = true)
    (hfresh : get_payment st d.order_id = none) :
    (prodamus_webhook plans isMember g now st d).1.subscriptions
      = st.subscriptions
        ++ [⟨uid, 1, now + 30 * secondsPerDay, "autopayment", none⟩] := by
  rw [webhook_reduces plans isMember g now st d uid h1 h2 hext hst]
  simp only [hauto, if_true]
  simp only [handleAutopayment, hfresh]
  simp [add_subscription, add_payment]

theorem autopay_extends_from_now_witness :
    (prodamus_webhook defaultPlans (fun _ => true) 5 0 stActiveSub
        dAutopay).1.subscriptions
      = stActiveSub.subscriptions
        ++ [⟨7, 1, 0 + 30 * secondsPerDay, "autopayment", none⟩] :=
  autopay_extends_from_now defaultPlans (fun _ => true) 5 0 stActiveSub
    dAutopay 7 (by decide) (by decide) (by decide) (by decide) (by decide)
    (by decide)

/-- C2 counterexample: user 7's subscription still runs until day 40
(t = 3456000 s), yet the autopayment arriving at now = 0 yields an expiry of
2592000 s (30 days from now), not `max(current_expiry, now) + 30 days`
= 6048000 s; the claimed formula is falsified at this input. -/
theorem autopay_ignores_current_expiry_counterexample :
    (prodamus_webhook defaultPlans (fun _ => true) 5 0 stActiveSub
        dAutopay).1.subscriptions
      = [⟨7, 1, 3456000, "payment", none⟩, ⟨7, 1, 2592000, "autopayment", none⟩]
    ∧ (2592000 : Int) ≠ max 3456000 0 + 30 * secondsPerDay := by
  constructor
  · decide
  · decide


/-! ## C3: the duplicate branch of the normal flow -/

/-- C3 (amended): for every successful non-autopayment notification whose
order id already has a Payment row of ANY status (not only `success`), the
handler short-circuits with `Payment already processed`, mutates nothing, and
re-issues an invite exactly when the user row exists, is flagged subscribed,
has a latest subscription row, and is not currently a channel member. -/
theorem duplicate_branch_any_status
    (plans : List PlanEntry) (isMember : Int → Bool) (g : Nat) (now : Int)
    (st : DBState) (d : WebhookData) (uid : Int) (p : Payment)
    (h1 : d.order_id ≠ "") (h2 : d.order_id ≠ "0")
    (hext : extract_user_id d = some uid)
    (hst : d.payment_status = "success")
    (hauto : isAutopayment d.payment_type = false)
    (hdup : get_payment st d.order_id = some p) :
    (prodamus_webhook plans isMember g now st d).1 = st
    ∧ (prodamus_webhook plans isMember g now st d).2.1
        = ⟨200, "ok", "Payment already processed"⟩
    ∧ ((∃ e, WebhookEffect.inviteSent uid e
          ∈ (prodamus_webhook plans isMember g now st d).2.2)
        ↔ (∃ u, get_user st uid = some u ∧ u.is_subscribed = true
            ∧ latestSubscription st uid ≠ none ∧ isMember uid = false)) := by
  rw [webhook_reduces plans isMember g now st d uid h1 h2 hext hst]
  simp only [hauto, Bool.false_eq_true, if_false, hdup]
  refine ⟨rfl, rfl, ?_⟩
  cases hu : get_user st uid with
  | none => simp [handleDuplicate, hu]
  | some u =>
    cases hsub : u.is_subscribed with
    | false => simp [handleDuplicate, hu, hsub]
    | true =>
      cases hls : latestSubscription st uid with
      | none => simp [handleDuplicate, hu, hsub, hls]
      | some s =>
        cases him : isMember uid with
        | false => simp [handleDuplicate, hu, hsub, hls, him]
        | true => simp [handleDuplicate, hu, hsub, hls, him]

theorem duplicate_branch_any_status_witness :
    (prodamus_webhook defaultPlans (fun _ => false) 5 0 stPending dStandard).1
        = stPending
    ∧ (prodamus_webhook defaultPlans (fun _ => false) 5 0 stPending
        dStandard).2.1 = ⟨200, "ok", "Payment already processed"⟩
    ∧ ((∃ e, WebhookEffect.inviteSent 7 e
          ∈ (prodamus_webhook defaultPlans (fun _ => false) 5 0 stPending
              dStandard).2.2)
        ↔ (∃ u, get_user stPending 7 = some u ∧ u.is_subscribed = true
            ∧ latestSubscription stPending 7 ≠ none
            ∧ (fun _ : Int => false) 7 = false)) :=
  duplicate_branch_any_status defaultPlans (fun _ => false) 5 0 stPending
    dStandard 7 ⟨7, "ord_7_1", 3500, "1_month", 1, "pending"⟩ (by decide)
    (by decide) (by decide) (by decide) (by decide) (by decide)

/-- C3 counterexample: the stored payment for `ord_7_1` has status
`pending`, yet the duplicate branch is taken (state unchanged, response
`Payment already processed`), falsifying "only when that stored Payment
already has status success". -/
theorem duplicate_branch_pending_counterexample :
    (get_payment stPending "ord_7_1").map Payment.status = some "pending"
    ∧ "pending" ≠ "success"
    ∧ (prodamus_webhook defaultPlans (fun _ => false) 5 0 stPending
        dStandard).1 = stPending
    ∧ (prodamus_webhook defaultPlans (fun _ => false) 5 0 stPending
        dStandard).2.1 = ⟨200, "ok", "Payment already processed"⟩ := by
  refine ⟨by decide, by decide, by decide, by decide⟩


theorem option_filter_truthy (o : Option Int) :
    Option.filter (fun n => n != 0) o = if truthyId o then o else none := by
  cases o with
  | none => rfl
  | some n =>
    by_cases h : n = 0
    · subst h; simp [Option.filter, truthyId]
    · simp [Option.filter, truthyId, h]

theorem filter_orElse (x : Option Int) (f : Unit → Option Int) :
    (Option.filter (fun n => n != 0) x).orElse f
      = if truthyId x then x else f () := by
  rw [option_filter_truthy]
  cases hx : truthyId x with
  | false => simp [hx, Option.orElse]
  | true =>
    cases x with
    | none => simp [truthyId] at hx
    | some n => simp [hx, Option.orElse]

theorem truthy_chain (a b c : Option Int) :
    (if truthyId (if truthyId (if truthyId a then a else b) then
        (if truthyId a then a else b) else c) then
      (if truthyId (if truthyId a then a else b) then
        (if truthyId a then a else b) else c)
     else none)
    = if truthyId a then a
      else if truthyId b then b
      else if truthyId c then c else none := by
  by_cases ha : truthyId a = true
  · simp [ha]
  · have ha' : truthyId a = false := by simpa using ha
    simp only [ha', Bool.false_eq_true, if_false]
    by_cases hb : truthyId b = true
    · simp [hb]
    · have hb' : truthyId b = false := by simpa using hb
      simp only [hb', Bool.false_eq_true, if_false]

/-! ## C4: identity derivation order -/

/-- C4 (amended): the owning user id is derived trying, in order,
`customer_extra`, the second underscore component of the order id, and the
legacy `tg_user_id` field — the payload's explicit `user_id` field is never
consulted; and when no strategy yields a truthy id the reconciler persists
nothing and acknowledges with HTTP 200 (an `error`-status body). -/
theorem identity_extraction_order
    (plans : List PlanEntry) (isMember : Int → Bool) (g : Nat) (now : Int)
    (st : DBState) (d : WebhookData) (v : String) :
    extract_user_id d = extractUserIdSpec d
    ∧ extract_user_id { d with user_id := v } = extract_user_id d
    ∧ (d.order_id ≠ "" → d.order_id ≠ "0" → extract_user_id d = none →
        prodamus_webhook plans isMember g now st d
          = (st, ⟨200, "error", "Cannot extract user_id from webhook data"⟩, [])) := by
  refine ⟨?_, rfl, ?_⟩
  · unfold extract_user_id extractUserIdSpec
    rw [filter_orElse, filter_orElse, option_filter_truthy]
    exact truthy_chain _ _ _
  · intro h1 h2 hnone
    have hbad : (d.order_id == "" || d.order_id == "0") = false := by
      simp [h1, h2]
    simp only [prodamus_webhook, hbad, hnone]
    simp

theorem identity_extraction_order_witness :
    prodamus_webhook defaultPlans (fun _ => false) 0 0 stEmpty dOnlyExplicitId
      = (stEmpty, ⟨200, "error", "Cannot extract user_id from webhook data"⟩,
         []) :=
  (identity_extraction_order defaultPlans (fun _ => false) 0 0 stEmpty
    dOnlyExplicitId "").2.2 (by decide) (by decide) (by decide)

/-- C4 counterexample: a payload whose explicit `user_id` field holds the
well-formed id 123 but offers no other identity hint is NOT resolved by the
handler — strategy (a) of the claim does not exist in the code. -/
theorem explicit_user_id_field_ignored_counterexample :
    pyInt? dOnlyExplicitId.user_id = some 123
    ∧ extract_user_id dOnlyExplicitId = none
    ∧ (prodamus_webhook defaultPlans (fun _ => false) 0 0 stEmpty
        dOnlyExplicitId).1 = stEmpty
    ∧ (prodamus_webhook defaultPlans (fun _ => false) 0 0 stEmpty
        dOnlyExplicitId).2.1.status = "error" := by
  refine ⟨by decide, by decide, by decide, by decide⟩


theorem find_plan_3500 :
    defaultPlans.find? (fun e => decide (|(3500 : ℚ) - e.price| < 100))
      = some ⟨"1_month", 1, 3500⟩ := by
  unfold defaultPlans get_plan_config
  apply List.find?_cons_of_pos
  simp only [decide_eq_true_eq]
  norm_num

theorem find_plan_999999 :
    defaultPlans.find? (fun e => decide (|(999999 : ℚ) - e.price| < 100))
      = none := by
  apply List.find?_eq_none.mpr
  intro e he
  fin_cases he <;> simp only [decide_eq_true_eq] <;> norm_num

theorem planInfo_default_1_month :
    planInfo defaultPlans "1_month" = some ⟨"1_month", 1, 3500⟩ := by
  simp [planInfo, defaultPlans, get_plan_config]

/-! ## C5: unmatched amounts fall back to the default plan -/

/-- C5 (amended): a successful, not-yet-seen standard purchase whose charged
amount matches no plan price within the 100 ₽ tolerance is NOT rejected: the
reconciler silently falls back to the default plan `1_month`, records the
payment and a 30-day subscription, and answers `Payment processed`. -/
theorem unknown_amount_silently_defaults
    (p1 p3 p6 p12 : ℚ) (isMember : Int → Bool) (g : Nat) (now : Int)
    (st : DBState) (d : WebhookData) (uid : Int)
    (h1 : d.order_id ≠ "") (h2 : d.order_id ≠ "0")
    (hext : extract_user_id d = some uid)
    (hst : d.payment_status = "success")
    (hauto : isAutopayment d.payment_type = false)
    (hgift : listStartsWith d.order_id.data "gift_".data = false)
    (hfresh : get_payment st d.order_id = none)
    (hnomatch : (get_plan_config p1 p3 p6 p12).find?
        (fun e => decide (|webhookAmount d - e.price| < 100)) = none) :
    (prodamus_webhook (get_plan_config p1 p3 p6 p12) isMember g now st
        d).1.payments
      = st.payments
        ++ [⟨uid, d.order_id, webhookAmount d, "1_month", 1, "success"⟩]
    ∧ (prodamus_webhook (get_plan_config p1 p3 p6 p12) isMember g now st
        d).1.subscriptions
      = st.subscriptions
        ++ [⟨uid, 1, now + 30 * secondsPerDay, "payment", none⟩]
    ∧ (prodamus_webhook (get_plan_config p1 p3 p6 p12) isMember g now st
        d).2.1 = ⟨200, "ok", "Payment processed"⟩ := by
  rw [webhook_reduces (get_plan_config p1 p3 p6 p12) isMember g now st d uid
    h1 h2 hext hst]
  simp only [hauto, Bool.false_eq_true, if_false, hfresh]
  have hkey : resolvePlanKey (get_plan_config p1 p3 p6 p12) (webhookAmount d)
      = "1_month" := by
    simp [resolvePlanKey, hnomatch]
  have hinfo : planInfo (get_plan_config p1 p3 p6 p12) "1_month"
      = some ⟨"1_month", 1, p1⟩ := by
    simp [planInfo, get_plan_config]
  unfold handleStandard
  simp only [hkey, hinfo, hgift, Bool.false_eq_true, if_false]
  simp [add_payment, add_subscription]

theorem unknown_amount_silently_defaults_witness :
    (prodamus_webhook (get_plan_config 3500 9450 17850 33600) (fun _ => false)
        5 0 stEmpty dOddAmount).1.payments
      = stEmpty.payments
        ++ [⟨7, dOddAmount.order_id, webhookAmount dOddAmount, "1_month", 1,
             "success"⟩]
    ∧ (prodamus_webhook (get_plan_config 3500 9450 17850 33600)
        (fun _ => false) 5 0 stEmpty dOddAmount).1.subscriptions
      = stEmpty.subscriptions
        ++ [⟨7, 1, 0 + 30 * secondsPerDay, "payment", none⟩]
    ∧ (prodamus_webhook (get_plan_config 3500 9450 17850 33600)
        (fun _ => false) 5 0 stEmpty dOddAmount).2.1
      = ⟨200, "ok", "Payment processed"⟩ :=
  unknown_amount_silently_defaults 3500 9450 17850 33600 (fun _ => false) 5 0
    stEmpty dOddAmount 7 (by decide) (by decide) (by decide) (by decide)
    (by decide) (by decide) (by decide) find_plan_999999

/-- C5 counterexample: the amount 999999 is within tolerance of no plan
price, yet the webhook answers ok/`Payment processed` and books the payment
under plan `1_month` — falsifying "rejects with an error response and does
not silently fall back to a default plan". -/
theorem unknown_amount_not_rejected_counterexample :
    (∀ e ∈ defaultPlans, ¬ |(999999 : ℚ) - e.price| < 100)
    ∧ (prodamus_webhook defaultPlans (fun _ => false) 5 0 stEmpty
        dOddAmount).2.1 = ⟨200, "ok", "Payment processed"⟩
    ∧ (prodamus_webhook defaultPlans (fun _ => false) 5 0 stEmpty
        dOddAmount).1.payments
      = [⟨7, "ord_7_1", 999999, "1_month", 1, "success"⟩] := by
  refine ⟨?_, ?_, ?_⟩
  · intro e he
    fin_cases he <;> norm_num
  all_goals {
    rw [webhook_reduces defaultPlans (fun _ => false) 5 0 stEmpty dOddAmount 7
      (by decide) (by decide) (by decide) (by decide)]
    have hauto : isAutopayment dOddAmount.payment_type = false := by decide
    have hfresh : get_payment stEmpty dOddAmount.order_id = none := by decide
    simp only [hauto, Bool.false_eq_true, if_false, hfresh]
    have hamt : webhookAmount dOddAmount = 999999 := rfl
    have hkey : resolvePlanKey defaultPlans (webhookAmount dOddAmount)
        = "1_month" := by
      rw [hamt, resolvePlanKey, find_plan_999999]
    unfold handleStandard
    simp only [hkey, planInfo_default_1_month]
    have hg : listStartsWith dOddAmount.order_id.data "gift_".data = false := by
      decide
    simp only [hg, Bool.false_eq_true, if_false]
    try simp [add_payment, add_subscription, stEmpty, dOddAmount]
    try rfl
  }

/-! ## C9: absent money fields default to 3500 -/

/-- C9: when both `sum` and `order_sum` are absent or empty, a successful,
not-yet-seen standard purchase is not rejected: the payment is recorded with
the hard-coded fallback amount 3500, which the price matching then resolves
to the `1_month` plan (under the default price table). -/
theorem absent_amount_defaults_3500
    (isMember : Int → Bool) (g : Nat) (now : Int) (st : DBState)
    (d : WebhookData) (uid : Int)
    (hsum : d.sum = none) (hosum : d.order_sum = none)
    (h1 : d.order_id ≠ "") (h2 : d.order_id ≠ "0")
    (hext : extract_user_id d = some uid)
    (hst : d.payment_status = "success")
    (hauto : isAutopayment d.payment_type = false)
    (hgift : listStartsWith d.order_id.data "gift_".data = false)
    (hfresh : get_payment st d.order_id = none) :
    (prodamus_webhook defaultPlans isMember g now st d).1.payments
      = st.payments ++ [⟨uid, d.order_id, 3500, "1_month", 1, "success"⟩]
    ∧ (prodamus_webhook defaultPlans isMember g now st d).2.1
      = ⟨200, "ok", "Payment processed"⟩ := by
  have hamt : webhookAmount d = 3500 := by
    simp [webhookAmount, hsum, hosum]
  rw [webhook_reduces defaultPlans isMember g now st d uid h1 h2 hext hst]
  simp only [hauto, Bool.false_eq_true, if_false, hfresh]
  have hkey : resolvePlanKey defaultPlans (webhookAmount d) = "1_month" := by
    rw [hamt, resolvePlanKey, find_plan_3500]
  unfold handleStandard
  simp only [hkey, planInfo_default_1_month, hgift, Bool.false_eq_true,
    if_false]
  simp [add_payment, add_subscription, hamt]

theorem absent_amount_defaults_3500_witness :
    (prodamus_webhook defaultPlans (fun _ => false) 5 0 stEmpty
        dNoAmount).1.payments
      = stEmpty.payments
        ++ [⟨7, dNoAmount.order_id, 3500, "1_month", 1, "success"⟩]
    ∧ (prodamus_webhook defaultPlans (fun _ => false) 5 0 stEmpty
        dNoAmount).2.1 = ⟨200, "ok", "Payment processed"⟩ :=
  absent_amount_defaults_3500 (fun _ => false) 5 0 stEmpty dNoAmount 7
    (by decide) (by decide) (by decide) (by decide) (by decide) (by decide)
    (by decide) (by decide) (by decide)


/-! ## C1: idempotence of the reconciler -/

/-- C1: processing the same successful notification twice (any branch —
autopayment, gift or standard) leaves exactly one Payment row for the order
id, inserts at most one Subscription row, and the second call performs no
state change at all. -/
theorem webhook_reconcile_idempotent
    (p1 p3 p6 p12 : ℚ) (isMember : Int → Bool) (g1 g2 : Nat) (now1 now2 : Int)
    (st : DBState) (d : WebhookData) (uid : Int)
    (h1 : d.order_id ≠ "") (h2 : d.order_id ≠ "0")
    (hext : extract_user_id d = some uid)
    (hst : d.payment_status = "success")
    (hfresh : get_payment st d.order_id = none) :
    ((prodamus_webhook (get_plan_config p1 p3 p6 p12) isMember g1 now1 st
        d).1.payments.countP (fun p => p.order_id == d.order_id) = 1)
    ∧ (prodamus_webhook (get_plan_config p1 p3 p6 p12) isMember g1 now1 st
        d).1.subscriptions.length ≤ st.subscriptions.length + 1
    ∧ (prodamus_webhook (get_plan_config p1 p3 p6 p12) isMember g2 now2
        ((prodamus_webhook (get_plan_config p1 p3 p6 p12) isMember g1 now1 st
          d).1) d).1
      = (prodamus_webhook (get_plan_config p1 p3 p6 p12) isMember g1 now1 st
          d).1 := by
  rw [webhook_reduces (get_plan_config p1 p3 p6 p12) isMember g1 now1 st d uid
    h1 h2 hext hst]
  cases hb : isAutopayment d.payment_type with
  | true =>
    simp only [hb, if_true]
    unfold handleAutopayment
    simp only [hfresh]
    refine ⟨?_, ?_, ?_⟩
    · exact countP_payments_append st.payments _ d.order_id hfresh rfl
    · simp [add_subscription, add_payment]
    · rw [webhook_reduces (get_plan_config p1 p3 p6 p12) isMember g2 now2 _ d
        uid h1 h2 hext hst]
      simp only [hb, if_true]
      unfold handleAutopayment
      have hdup2 : get_payment
          (add_subscription (add_payment st uid d.order_id (webhookAmount d)
            "autopayment_1_month" 1 "success") uid 1
            (now1 + 30 * secondsPerDay) "autopayment" none) d.order_id
          = some ⟨uid, d.order_id, webhookAmount d, "autopayment_1_month", 1,
              "success"⟩ := by
        simp only [get_payment, add_subscription, add_payment]
        exact find?_payments_append st.payments _ d.order_id hfresh rfl
      rw [hdup2]
  | false =>
    simp only [hb, Bool.false_eq_true, if_false, hfresh]
    obtain ⟨info, hinfo⟩ :=
      planInfo_resolve_isSome p1 p3 p6 p12 (webhookAmount d)
    unfold handleStandard
    simp only [hinfo]
    cases hg : listStartsWith d.order_id.data "gift_".data with
    | true =>
      simp only [hg, if_true]
      refine ⟨?_, ?_, ?_⟩
      · exact countP_payments_append st.payments _ d.order_id hfresh rfl
      · simp [create_promocode, add_payment]
      · rw [webhook_reduces (get_plan_config p1 p3 p6 p12) isMember g2 now2 _
          d uid h1 h2 hext hst]
        simp only [hb, Bool.false_eq_true, if_false]
        have hdup2 : get_payment
            (create_promocode (add_payment st uid d.order_id (webhookAmount d)
              ("gift_" ++ resolvePlanKey (get_plan_config p1 p3 p6 p12)
                (webhookAmount d)) info.months "success")
              ("GIFT_" ++ toString g1) "free" 100 info.months (some 1) uid
              true) d.order_id
            = some ⟨uid, d.order_id, webhookAmount d,
                "gift_" ++ resolvePlanKey (get_plan_config p1 p3 p6 p12)
                  (webhookAmount d), info.months, "success"⟩ := by
          simp only [get_payment, create_promocode, add_payment]
          exact find?_payments_append st.payments _ d.order_id hfresh rfl
        rw [hdup2]
        rfl
    | false =>
      simp only [hg, Bool.false_eq_true, if_false]
      refine ⟨?_, ?_, ?_⟩
      · exact countP_payments_append st.payments _ d.order_id hfresh rfl
      · simp [add_subscription, add_payment]
      · rw [webhook_reduces (get_plan_config p1 p3 p6 p12) isMember g2 now2 _
          d uid h1 h2 hext hst]
        simp only [hb, Bool.false_eq_true, if_false]
        have hdup2 : get_payment
            (add_subscription (add_payment st uid d.order_id (webhookAmount d)
              (resolvePlanKey (get_plan_config p1 p3 p6 p12) (webhookAmount d))
              info.months "success") uid info.months
              (now1 + 30 * (info.months : Int) * secondsPerDay) "payment" none)
            d.order_id
            = some ⟨uid, d.order_id, webhookAmount d,
                resolvePlanKey (get_plan_config p1 p3 p6 p12) (webhookAmount d),
                info.months, "success"⟩ := by
          simp only [get_payment, add_subscription, add_payment]
          exact find?_payments_append st.payments _ d.order_id hfresh rfl
        rw [hdup2]
        rfl

theorem webhook_reconcile_idempotent_witness :
    ((prodamus_webhook (get_plan_config 3500 9450 17850 33600)
        (fun _ => false) 5 0 stEmpty dStandard).1.payments.countP
        (fun p => p.order_id == dStandard.order_id) = 1)
    ∧ (prodamus_webhook (get_plan_config 3500 9450 17850 33600)
        (fun _ => false) 5 0 stEmpty dStandard).1.subscriptions.length
        ≤ stEmpty.subscriptions.length + 1
    ∧ (prodamus_webhook (get_plan_config 3500 9450 17850 33600)
        (fun _ => false) 6 99 ((prodamus_webhook
          (get_plan_config 3500 9450 17850 33600) (fun _ => false) 5 0 stEmpty
          dStandard).1) dStandard).1
      = (prodamus_webhook (get_plan_config 3500 9450 17850 33600)
          (fun _ => false) 5 0 stEmpty dStandard).1 :=
  webhook_reconcile_idempotent 3500 9450 17850 33600 (fun _ => false) 5 6 0 99
    stEmpty dStandard 7 (by decide) (by decide) (by decide) (by decide)
    (by decide)


/-! ## C6: the revoke pass of the expiry sweeper -/

theorem sweep_foldl_split (now : Int) (l : List User) (st0 : DBState)
    (e0 : List SweepEffect) :
    l.foldl (sweepUser now) (st0, e0)
      = (l.foldl (applySweep now) st0,
         e0 ++ l.flatMap (fun u => if sweepActs now u then
             [SweepEffect.removedFromChannel u.id,
              SweepEffect.lapsedNotice u.id]
           else [])) := by
  induction l generalizing st0 e0 with
  | nil => simp
  | cons v l ih =>
    rw [List.foldl_cons, List.foldl_cons]
    by_cases hv : daysExpired now v < 2
    · have hv' : sweepActs now v = false := by simp [sweepActs, hv]
      rw [show sweepUser now (st0, e0) v = (st0, e0) from by
        simp [sweepUser, hv]]
      rw [show applySweep now st0 v = st0 from by simp [applySweep, hv']]
      rw [ih]
      simp [hv']
    · have hv' : sweepActs now v = true := by simp [sweepActs, hv]
      rw [show sweepUser now (st0, e0) v
          = (update_subscription_status st0 v.id false none,
             e0 ++ [SweepEffect.removedFromChannel v.id,
                    SweepEffect.lapsedNotice v.id]) from by
        simp [sweepUser, hv]]
      rw [show applySweep now st0 v
          = update_subscription_status st0 v.id false none from by
        simp [applySweep, hv']]
      rw [ih]
      simp [hv']

theorem sweep_users_map (now : Int) (l : List User) (st0 : DBState) :
    l.foldl (applySweep now) st0
      = { st0 with users := st0.users.map (fun w =>
          if l.any (fun v => v.id == w.id && sweepActs now v) then revokeFn w
          else w) } := by
  induction l generalizing st0 with
  | nil =>
    cases st0
    simp
  | cons v l ih =>
    rw [List.foldl_cons]
    by_cases hv : sweepActs now v
    · rw [show applySweep now st0 v
          = update_subscription_status st0 v.id false none from by
        simp [applySweep, hv]]
      rw [ih]
      cases st0 with
      | mk us subs promos pays =>
        simp only [update_subscription_status, setSubscriptionFields,
          List.map_map, DBState.mk.injEq, and_true, true_and]
        apply List.map_congr_left
        intro w _
        by_cases hw : w.id == v.id
        · have hw' : w.id = v.id := by simpa using hw
          have hvw : (v.id == w.id) = true := by simp [hw']
          simp only [Function.comp_apply, hw, if_true, List.any_cons, hvw, hv,
            Bool.true_and, Bool.true_or, if_true]
          by_cases hany : l.any (fun x => x.id == w.id && sweepActs now x)
          · simp [revokeFn, hany]
          · simp [revokeFn, hany]
        · have hw' : ¬ w.id = v.id := by simpa using hw
          have hvw : (v.id == w.id) = false := by
            rw [beq_eq_false_iff_ne]
            exact fun h => hw' h.symm
          simp only [Function.comp_apply, hw, Bool.false_eq_true, if_false,
            List.any_cons, hvw, Bool.false_and, Bool.false_or]
    · rw [show applySweep now st0 v = st0 from by simp [applySweep, hv]]
      rw [ih]
      cases st0 with
      | mk us subs promos pays =>
        simp only [DBState.mk.injEq, and_true, true_and]
        apply List.map_congr_left
        intro w _
        have hv' : sweepActs now v = false := by simpa using hv
        simp [List.any_cons, hv']


theorem get_user_users_map (st : DBState) (uid : Int) (g : User → User)
    (hg : ∀ w, (g w).id = w.id) :
    get_user { st with users := st.users.map g } uid
      = (get_user st uid).map g := by
  unfold get_user
  simp only []
  rw [List.find?_map]
  have hp : ((fun u => u.id == uid) ∘ g) = (fun w => w.id == uid) := by
    funext w
    simp [hg w]
  rw [hp]

theorem find?_id_of_nodup (l : List User) (u : User) (hmem : u ∈ l)
    (hnodup : (l.map User.id).Nodup) :
    l.find? (fun w => w.id == u.id) = some u := by
  induction l with
  | nil => cases hmem
  | cons a l ih =>
    rw [List.map_cons, List.nodup_cons] at hnodup
    obtain ⟨ha, hnd⟩ := hnodup
    rcases List.mem_cons.mp hmem with rfl | hm
    · rw [List.find?_cons_of_pos]
      simp
    · have hne : (a.id == u.id) = false := by
        rw [beq_eq_false_iff_ne]
        intro h
        exact ha (h ▸ List.mem_map_of_mem User.id hm)
      rw [List.find?_cons_of_neg]
      · exact ih hm hnd
      · simp [hne]

theorem any_unique_id (l : List User) (u : User) (q : User → Bool)
    (hmem : u ∈ l) (hnodup : (l.map User.id).Nodup) :
    l.any (fun v => v.id == u.id && q v) = q u := by
  induction l with
  | nil => cases hmem
  | cons a l ih =>
    rw [List.map_cons, List.nodup_cons] at hnodup
    obtain ⟨ha, hnd⟩ := hnodup
    rcases List.mem_cons.mp hmem with rfl | hm
    · rw [List.any_cons]
      have h0 : l.any (fun v => v.id == u.id && q v) = false := by
        rw [List.any_eq_false]
        intro v hv
        have h1 : (v.id == u.id) = false := by
          rw [beq_eq_false_iff_ne]
          intro h
          exact ha (h ▸ List.mem_map_of_mem User.id hv)
        simp [h1]
      rw [h0]
      simp
    · have hne : (a.id == u.id) = false := by
        rw [beq_eq_false_iff_ne]
        intro h
        exact ha (h ▸ List.mem_map_of_mem User.id hm)
      rw [List.any_cons, ih hm hnd]
      simp [hne]

theorem countP_unique_id (l : List User) (u : User) (q : User → Bool)
    (hmem : u ∈ l) (hnodup : (l.map User.id).Nodup) :
    l.countP (fun v => v.id == u.id && q v) = if q u then 1 else 0 := by
  induction l with
  | nil => cases hmem
  | cons a l ih =>
    rw [List.map_cons, List.nodup_cons] at hnodup
    obtain ⟨ha, hnd⟩ := hnodup
    rcases List.mem_cons.mp hmem with rfl | hm
    · rw [List.countP_cons]
      have h0 : l.countP (fun v => v.id == u.id && q v) = 0 := by
        rw [List.countP_eq_zero]
        intro v hv
        have h1 : (v.id == u.id) = false := by
          rw [beq_eq_false_iff_ne]
          intro h
          exact ha (h ▸ List.mem_map_of_mem User.id hv)
        simp [h1]
      rw [h0]
      simp
    · have hne : (a.id == u.id) = false := by
        rw [beq_eq_false_iff_ne]
        intro h
        exact ha (h ▸ List.mem_map_of_mem User.id hm)
      rw [List.countP_cons, ih hm hnd]
      simp [hne]

theorem countP_zero_of_no_id (l : List User) (uid : Int) (q : User → Bool)
    (h : ∀ v ∈ l, v.id ≠ uid) :
    l.countP (fun v => v.id == uid && q v) = 0 := by
  rw [List.countP_eq_zero]
  intro v hv
  simp [h v hv]

theorem revokeCount_flatMap (now : Int) (l : List User) (uid : Int) :
    revokeCount (l.flatMap (fun u => if sweepActs now u then
        [SweepEffect.removedFromChannel u.id, SweepEffect.lapsedNotice u.id]
      else [])) uid
      = l.countP (fun u => u.id == uid && sweepActs now u) := by
  induction l with
  | nil => rfl
  | cons v l ih =>
    rw [List.flatMap_cons]
    unfold revokeCount at ih ⊢
    have hcv : List.count (SweepEffect.removedFromChannel uid)
        (if sweepActs now v then [SweepEffect.removedFromChannel v.id,
          SweepEffect.lapsedNotice v.id] else [])
        = if (v.id == uid && sweepActs now v) then 1 else 0 := by
      by_cases hv : sweepActs now v
      · by_cases hvid : v.id = uid
        · subst hvid
          simp [hv, List.count_cons]
        · simp [hv, hvid, List.count_cons]
      · simp [hv]
    rw [List.count_append, hcv, ih, List.countP_cons]
    exact Nat.add_comm _ _


/-- C6: for every subscribed user whose expiry is strictly past (with
distinct user ids, as the primary key guarantees), the revoke pass leaves the
Subscription history untouched; while days-since-expiry < 2 it neither
changes the user row nor emits a removal; once days-since-expiry ≥ 2 it
flips the flag (nulling `subscription_until`), emits exactly one channel
removal for the user, and a second pass emits none. -/
theorem sweeper_grace_and_revoke
    (st : DBState) (now t : Int) (u : User)
    (hmem : u ∈ st.users)
    (hnodup : (st.users.map User.id).Nodup)
    (hsub : u.is_subscribed = true)
    (huntil : u.subscription_until = some t)
    (hpast : t < now) :
    (check_expired_subscriptions st now).1.subscriptions = st.subscriptions
    ∧ (timedeltaDays (now - t) < 2 →
        get_user (check_expired_subscriptions st now).1 u.id = some u
        ∧ revokeCount (check_expired_subscriptions st now).2 u.id = 0)
    ∧ (2 ≤ timedeltaDays (now - t) →
        get_user (check_expired_subscriptions st now).1 u.id
          = some (revokeFn u)
        ∧ revokeCount (check_expired_subscriptions st now).2 u.id = 1
        ∧ revokeCount (check_expired_subscriptions
            (check_expired_subscriptions st now).1 now).2 u.id = 0) := by
  have hexp : isExpiredSubscriber now u = true := by
    simp [isExpiredSubscriber, hsub, huntil, hpast]
  have hdays : daysExpired now u = timedeltaDays (now - t) := by
    simp [daysExpired, huntil]
  have hLmem : u ∈ get_expired_subscribers st now := by
    unfold get_expired_subscribers
    exact List.mem_filter.mpr ⟨hmem, hexp⟩
  have hLnodup : ((get_expired_subscribers st now).map User.id).Nodup := by
    apply List.Nodup.sublist _ hnodup
    exact (List.filter_sublist st.users).map User.id
  have hany : (get_expired_subscribers st now).any
      (fun v => v.id == u.id && sweepActs now v) = sweepActs now u :=
    any_unique_id _ u (sweepActs now) hLmem hLnodup
  have hg : ∀ w, ((fun w => if (get_expired_subscribers st now).any
      (fun v => v.id == w.id && sweepActs now v) then revokeFn w else w)
        w).id = w.id := by
    intro w
    by_cases h : (get_expired_subscribers st now).any
        (fun v => v.id == w.id && sweepActs now v)
    · simp [h, revokeFn]
    · simp [h]
  have hrun : check_expired_subscriptions st now
      = ({ st with users := st.users.map (fun w =>
            if (get_expired_subscribers st now).any
                (fun v => v.id == w.id && sweepActs now v) then revokeFn w
            else w) },
         (get_expired_subscribers st now).flatMap (fun v =>
            if sweepActs now v then
              [SweepEffect.removedFromChannel v.id,
               SweepEffect.lapsedNotice v.id]
            else [])) := by
    unfold check_expired_subscriptions
    rw [sweep_foldl_split, sweep_users_map]
    simp
  have hfind : get_user st u.id = some u :=
    find?_id_of_nodup st.users u hmem hnodup
  have hgen : ∀ X : DBState,
      (∀ v ∈ get_expired_subscribers X now, v.id ≠ u.id) →
      revokeCount (check_expired_subscriptions X now).2 u.id = 0 := by
    intro X hX
    unfold check_expired_subscriptions
    rw [sweep_foldl_split]
    simp only [List.nil_append]
    rw [revokeCount_flatMap]
    exact countP_zero_of_no_id _ _ _ hX
  refine ⟨?_, ?_, ?_⟩
  · rw [hrun]
  · intro hgrace
    have hacts : sweepActs now u = false := by
      simp [sweepActs, hdays, hgrace]
    constructor
    · rw [hrun]
      rw [get_user_users_map st u.id _ hg]
      rw [hfind]
      simp only [Option.map_some']
      rw [show ((get_expired_subscribers st now).any
          (fun v => v.id == u.id && sweepActs now v)) = false from
        hany.trans hacts]
      simp
    · rw [hrun]
      simp only []
      rw [revokeCount_flatMap]
      rw [countP_unique_id _ u (sweepActs now) hLmem hLnodup, hacts]
      simp
  · intro hrev
    have hacts : sweepActs now u = true := by
      simp only [sweepActs, hdays]
      simp
      omega
    refine ⟨?_, ?_, ?_⟩
    · rw [hrun]
      rw [get_user_users_map st u.id _ hg]
      rw [hfind]
      simp only [Option.map_some']
      rw [show ((get_expired_subscribers st now).any
          (fun v => v.id == u.id && sweepActs now v)) = true from
        hany.trans hacts]
      simp
    · rw [hrun]
      simp only []
      rw [revokeCount_flatMap]
      rw [countP_unique_id _ u (sweepActs now) hLmem hLnodup, hacts]
      simp
    · apply hgen
      intro v hv hvid
      rw [hrun] at hv
      obtain ⟨hvmem, hvexp⟩ := List.mem_filter.mp hv
      simp only [] at hvmem
      obtain ⟨w, hwmem, hweq⟩ := List.mem_map.mp hvmem
      have hwid : w.id = u.id := by
        rw [← hvid, ← hweq]
        exact (hg w).symm ▸ rfl
      have hwu : w = u := List.inj_on_of_nodup_map hnodup hwmem hmem hwid
      subst hwu
      have hvu : v = revokeFn w := by
        rw [← hweq]
        rw [show ((get_expired_subscribers st now).any
            (fun v => v.id == w.id && sweepActs now v)) = true from
          hany.trans hacts]
        simp
      rw [hvu] at hvexp
      simp [isExpiredSubscriber, revokeFn] at hvexp


theorem sweeper_grace_and_revoke_witness :
    (check_expired_subscriptions stSweep 0).1.subscriptions
        = stSweep.subscriptions
    ∧ (timedeltaDays (0 - (-259200)) < 2 →
        get_user (check_expired_subscriptions stSweep 0).1 2
            = some ⟨2, none, true, some (-259200)⟩
        ∧ revokeCount (check_expired_subscriptions stSweep 0).2 2 = 0)
    ∧ (2 ≤ timedeltaDays (0 - (-259200)) →
        get_user (check_expired_subscriptions stSweep 0).1 2
            = some ⟨2, none, false, none⟩
        ∧ revokeCount (check_expired_subscriptions stSweep 0).2 2 = 1
        ∧ revokeCount (check_expired_subscriptions
            (check_expired_subscriptions stSweep 0).1 0).2 2 = 0) :=
  sweeper_grace_and_revoke stSweep 0 (-259200)
    ⟨2, none, true, some (-259200)⟩ (by decide) (by decide) (by decide)
    (by decide) (by decide)

end ArtClub
